import Mathlib

/-!
Verification of the order lifecycle service in `src/server.js` of
Kislay20/ecommerce-app.

The service is an Express application with three payment endpoints:

* `POST /api/pay` — validates the request body with a JavaScript falsy
  check, persists a `PENDING` order document, then calls the PhonePe
  client's `pay`; if that returns an `orderId` it is stored as
  `merchantTransactionId`.
* `POST /api/callback` — decodes the gateway callback; on `success` it
  overwrites the order with status `COMPLETED` (recording the reported
  transaction id and code) and then sends confirmation e-mails; otherwise
  it overwrites the order with status `FAILED`.  Firestore's `update`
  rejects when the document is absent, and that rejection is caught by
  the surrounding `try`, which answers HTTP 500.
* `GET /api/payment/status/:merchantOrderId` — unconditionally calls the
  gateway's `getOrderStatus` and, when a truthy `state` comes back,
  overwrites the order's `status`/`paymentState` with that raw string and
  `phonepeTransactionId` with the reported transaction id (or null).

The embedding below models the Firestore collection as an association
list keyed by `merchantOrderId`, the gateway as the value of its single
call in each handler, and each handler as a pure function from the store
and the request to an HTTP status, the new store, and the observable
side effects (e-mail dispatches, the amount passed to the gateway).
-/

/-- A line item of an order (`products` array element in the request body). -/
structure Product where
  name : String
  quantity : Nat
  price : Int
deriving DecidableEq

/-- The `shippingDetails` object persisted with the order.  The e-mail is
an `Option`: `none` stands for a missing or empty (JavaScript-falsy)
address, which makes the callback handler skip the confirmation e-mail. -/
structure ShippingDetails where
  name : String
  address : String
  city : String
  state : String
  zip : String
  phone : String
  email : Option String
deriving DecidableEq

/-- An order document in the `orders` Firestore collection, with the
fields `src/server.js` reads or writes.  `Option` fields model fields
that may be absent (or null) on the document. -/
structure Order where
  merchantOrderId : String
  userId : String
  amount : Int
  products : List Product
  shippingDetails : ShippingDetails
  status : String
  paymentState : Option String
  phonepeTransactionId : Option String
  merchantTransactionId : Option String
deriving DecidableEq

/-- The Firestore `orders` collection: an association list from document
id (`merchantOrderId`) to the order document. -/
abbrev Store := List (String × Order)

namespace Store

/-- `db.collection("orders").doc(k).get()`: the document at `k`, if any. -/
def get : Store → String → Option Order
  | [], _ => none
  | (k', o) :: rest, k => if k' = k then some o else get rest k

/-- `doc(k).set(o)`: create or overwrite the document at `k`. -/
def set : Store → String → Order → Store
  | [], k, o => [(k, o)]
  | (k', o') :: rest, k, o =>
      if k' = k then (k, o) :: rest else (k', o') :: set rest k o

/-- `doc(k).update(...)`: apply `f` to the document at `k`; Firestore
rejects the update (here: `none`) when the document does not exist. -/
def update : Store → String → (Order → Order) → Option Store
  | [], _, _ => none
  | (k', o) :: rest, k, f =>
      if k' = k then some ((k', f o) :: rest)
      else (update rest k f).map ((k', o) :: ·)

end Store

/-- The decoded PhonePe callback payload
(`JSON.parse(Buffer.from(body.response, "base64"))`): the nested success
flag, status code, `merchantOrderId` and transaction id. -/
structure DecodedCallback where
  success : Bool
  code : String
  merchantOrderId : String
  transactionId : Option String
deriving DecidableEq

/-- The body of a `POST /api/callback` request as the handler sees it:
either the base64/JSON decode throws (`malformed`) or it yields a
`DecodedCallback`. -/
inductive CallbackBody where
  | malformed
  | ok (d : DecodedCallback)
deriving DecidableEq

/-- An inbound callback request: whether the JSON body and the
`x-verify` header are present (truthy), and the decode outcome. -/
structure CallbackRequest where
  hasBody : Bool
  hasXVerify : Bool
  body : CallbackBody
deriving DecidableEq

/-- The observable outcome of the callback handler: the HTTP status sent
to the transport, the resulting store, and the confirmation e-mail
recipients dispatched via `sgMail.send`, in order. -/
structure CallbackResult where
  httpStatus : Nat
  store : Store
  emailsSent : List String
deriving DecidableEq

/-- `POST /api/callback` from `src/server.js` (lines 186–248).

* missing body or missing `x-verify` header → 400, nothing touched;
* decode failure → thrown, caught → 500, nothing touched;
* `decodedResponse.success` → `orderRef.update({status: "COMPLETED",
  phonepeTransactionId, paymentState})`; if the document is absent the
  update rejects and the catch answers 500; on success the handler
  re-reads the document and sends the user confirmation e-mail (when the
  shipping e-mail is truthy) and then the admin e-mail (when
  `ADMIN_EMAIL` is set), then answers 200;
* otherwise → `orderRef.update({status: "FAILED", paymentState})`; 500 on
  a missing document, else 200 with no e-mail. -/
def handleCallback (store : Store) (adminEmail : Option String)
    (req : CallbackRequest) : CallbackResult :=
  if !req.hasBody || !req.hasXVerify then
    ⟨400, store, []⟩
  else
    match req.body with
    | .malformed => ⟨500, store, []⟩
    | .ok d =>
      if d.success then
        match store.update d.merchantOrderId (fun o =>
            { o with
              status := "COMPLETED"
              phonepeTransactionId := d.transactionId
              paymentState := some d.code }) with
        | none => ⟨500, store, []⟩
        | some store2 =>
          let emails :=
            match store2.get d.merchantOrderId with
            | none => []
            | some o =>
              match o.shippingDetails.email with
              | none => []
              | some userEmail =>
                userEmail :: (match adminEmail with
                              | none => []
                              | some a => [a])
          ⟨200, store2, emails⟩
      else
        match store.update d.merchantOrderId (fun o =>
            { o with status := "FAILED", paymentState := some d.code }) with
        | none => ⟨500, store, []⟩
        | some store2 => ⟨200, store2, []⟩

/-- The outcome of the single `phonepeClient.getOrderStatus` call made by
the status endpoint: a thrown error, or a response whose `state` field is
either falsy (`none`) or a raw state string, with an optional
`paymentDetails[0].transactionId`. -/
inductive GatewayStatusResult where
  | error
  | ok (state : Option String) (transactionId : Option String)
deriving DecidableEq

/-- The observable outcome of the status endpoint: HTTP status, resulting
store, and how many `getOrderStatus` calls were made. -/
structure StatusResult where
  httpStatus : Nat
  store : Store
  gatewayCalls : Nat
deriving DecidableEq

/-- `GET /api/payment/status/:merchantOrderId` from `src/server.js`
(lines 254–275).  The handler calls `phonepeClient.getOrderStatus` first,
unconditionally — before reading the stored order and regardless of its
status.  When the gateway answers with a truthy `state`, the raw state
string is written verbatim into both `status` and `paymentState`, and
`phonepeTransactionId` is overwritten with the reported id (or null);
a missing document makes the update reject, caught → 500.  A thrown
gateway call or a falsy `state` → 500 without mutation. -/
def handleStatus (store : Store) (merchantOrderId : String)
    (gw : GatewayStatusResult) : StatusResult :=
  match gw with
  | .error => ⟨500, store, 1⟩
  | .ok none _ => ⟨500, store, 1⟩
  | .ok (some s) txn =>
    match store.update merchantOrderId (fun o =>
        { o with
          status := s
          paymentState := some s
          phonepeTransactionId := txn }) with
    | none => ⟨500, store, 1⟩
    | some store2 => ⟨200, store2, 1⟩

/-- The body of a `POST /api/pay` request.  `none` models a JavaScript
falsy field: an absent `products`/`shippingDetails`/`userId`, and for
`amount` the value `some 0` is falsy as well (`!0` is true), while any
non-zero number — including a negative one — is truthy. -/
structure PayRequestBody where
  amount : Option Int
  products : Option (List Product)
  shippingDetails : Option ShippingDetails
  userId : Option String
deriving DecidableEq

/-- The JavaScript guard `!amount || !products || !shippingDetails ||
!userId` of the pay handler. -/
def PayRequestBody.invalid (r : PayRequestBody) : Bool :=
  r.amount.getD 0 == 0 || r.products.isNone
    || r.shippingDetails.isNone || r.userId.isNone

/-- The outcome of the `phonepeClient.pay` call: a thrown error, or a
response with an optional `orderId` (the gateway handle) and redirect
URL. -/
inductive GatewayPayResult where
  | error
  | ok (orderId : Option String) (redirectUrl : Option String)
deriving DecidableEq

/-- The observable outcome of the pay endpoint: HTTP status, resulting
store, and the amount passed to the gateway's `pay` call (`none` when no
gateway call was made). -/
structure PayResult where
  httpStatus : Nat
  store : Store
  gatewayAmount : Option Int
deriving DecidableEq

/-- `POST /api/pay` from `src/server.js` (lines 135–180).

* the falsy guard rejects with 400 before any store or gateway call;
* otherwise the order is persisted with `doc(merchantOrderId).set` in
  status `PENDING` with no transaction ids, then `phonepeClient.pay` is
  called with `amount * 100` (paise);
* a thrown `pay` call is caught → 500, the persisted order is retained;
* on a response with a truthy `orderId`, that id is stored as
  `merchantTransactionId`; then 200. -/
def handlePay (store : Store) (merchantOrderId : String)
    (req : PayRequestBody) (gw : GatewayPayResult) : PayResult :=
  match req.amount, req.products, req.shippingDetails, req.userId with
  | some a, some p, some sd, some u =>
    if a == 0 then ⟨400, store, none⟩
    else
      let order : Order :=
        { merchantOrderId := merchantOrderId
          userId := u
          amount := a
          products := p
          shippingDetails := sd
          status := "PENDING"
          paymentState := none
          phonepeTransactionId := none
          merchantTransactionId := none }
      let store1 := store.set merchantOrderId order
      match gw with
      | .error => ⟨500, store1, some (a * 100)⟩
      | .ok oid _ =>
        let store2 :=
          match oid with
          | some h =>
            (store1.update merchantOrderId
              (fun o => { o with merchantTransactionId := some h })).getD store1
          | none => store1
        ⟨200, store2, some (a * 100)⟩
  | _, _, _, _ => ⟨400, store, none⟩

/-- Repeated delivery of the same callback (the gateway's at-least-once
channel): process the request `n` times in sequence, threading the store,
and count the total number of e-mail dispatches. -/
def iterateCallback (adminEmail : Option String) (req : CallbackRequest) :
    Nat → Store → Store × Nat
  | 0, s => (s, 0)
  | n + 1, s =>
    let r := handleCallback s adminEmail req
    let rest := iterateCallback adminEmail req n r.store
    (rest.1, r.emailsSent.length + rest.2)

/-! ### Concrete fixtures (the end-to-end scenario of §8 of the spec) -/

/-- Shipping details with a (truthy) customer e-mail address. -/
def demoShipping : ShippingDetails :=
  { name := "Asha"
    address := "1 Main St"
    city := "Pune"
    state := "MH"
    zip := "411001"
    phone := "9999999999"
    email := some "asha@example.com" }

/-- Two line items totalling 500. -/
def demoProducts : List Product :=
  [⟨"Widget", 1, 300⟩, ⟨"Gadget", 1, 200⟩]

/-- A freshly initiated order: `PENDING`, gateway handle recorded. -/
def pendingOrder : Order :=
  { merchantOrderId := "M-1"
    userId := "U1"
    amount := 500
    products := demoProducts
    shippingDetails := demoShipping
    status := "PENDING"
    paymentState := none
    phonepeTransactionId := none
    merchantTransactionId := some "H1" }

/-- The same order after a successful payment. -/
def completedOrder : Order :=
  { pendingOrder with
    status := "COMPLETED"
    paymentState := some "PAYMENT_SUCCESS"
    phonepeTransactionId := some "T1" }

/-- An order whose initiation never completed: no gateway handle. -/
def noHandleOrder : Order :=
  { pendingOrder with merchantTransactionId := none }

/-- Store holding the single pending order `M-1`. -/
def storePending : Store := [("M-1", pendingOrder)]

/-- Store holding the single completed order `M-1`. -/
def storeCompleted : Store := [("M-1", completedOrder)]

/-- Store holding the single handle-less order `M-1`. -/
def storeNoHandle : Store := [("M-1", noHandleOrder)]

/-- A well-formed success callback for order `M-1`. -/
def successCallback : CallbackRequest :=
  ⟨true, true, .ok ⟨true, "PAYMENT_SUCCESS", "M-1", some "T1"⟩⟩

/-- A well-formed failure callback for order `M-1`. -/
def failureCallback : CallbackRequest :=
  ⟨true, true, .ok ⟨false, "PAYMENT_ERROR", "M-1", none⟩⟩

/-- A well-formed success callback for the unknown order `M-2`. -/
def unknownCallback : CallbackRequest :=
  ⟨true, true, .ok ⟨true, "PAYMENT_SUCCESS", "M-2", some "T2"⟩⟩

/-! ### Store lemmas -/

namespace Store

theorem get_set (s : Store) (k : String) (o : Order) :
    (s.set k o).get k = some o := by
  induction s with
  | nil => simp [set, get]
  | cons hd tl ih =>
    obtain ⟨k', o'⟩ := hd
    by_cases hk : k' = k
    · simp [set, get, hk]
    · simp [set, get, hk, ih]

theorem update_of_get_none (s : Store) (k : String) (f : Order → Order)
    (h : s.get k = none) : s.update k f = none := by
  induction s with
  | nil => rfl
  | cons hd tl ih =>
    obtain ⟨k', o'⟩ := hd
    by_cases hk : k' = k
    · simp [get, hk] at h
    · simp only [get, if_neg hk] at h
      simp [update, hk, ih h]

theorem update_of_get_some (s : Store) (k : String) (f : Order → Order)
    (o : Order) (h : s.get k = some o) :
    ∃ s2, s.update k f = some s2 ∧ s2.get k = some (f o) := by
  induction s with
  | nil => simp [get] at h
  | cons hd tl ih =>
    obtain ⟨k', o'⟩ := hd
    by_cases hk : k' = k
    · simp only [get, if_pos hk] at h
      injection h with ho
      exact ⟨(k', f o') :: tl, by simp [update, hk], by simp [get, hk, ho]⟩
    · simp only [get, if_neg hk] at h
      obtain ⟨s2, hu, hg⟩ := ih h
      exact ⟨(k', o') :: s2, by simp [update, hk, hu], by simp [get, hk, hg]⟩

end Store

/-! ### Handler step lemmas -/

/-- A well-formed success callback for an existing order with a truthy
customer e-mail: the order is overwritten to `COMPLETED` with the
reported transaction id and code, the handler answers 200, and it
dispatches the customer e-mail followed by the admin e-mail when
`ADMIN_EMAIL` is set. -/
theorem handleCallback_success_step (store : Store) (adminEmail : Option String)
    (d : DecodedCallback) (o : Order) (e : String)
    (hs : d.success = true) (h : store.get d.merchantOrderId = some o)
    (he : o.shippingDetails.email = some e) :
    ∃ store2,
      handleCallback store adminEmail ⟨true, true, .ok d⟩ =
        ⟨200, store2,
          e :: (match adminEmail with | none => [] | some a => [a])⟩ ∧
      store2.get d.merchantOrderId =
        some { o with
               status := "COMPLETED"
               phonepeTransactionId := d.transactionId
               paymentState := some d.code } := by
  obtain ⟨store2, hu, hg⟩ := Store.update_of_get_some store d.merchantOrderId
    (fun o => { o with
                status := "COMPLETED"
                phonepeTransactionId := d.transactionId
                paymentState := some d.code }) o h
  refine ⟨store2, ?_, hg⟩
  simp [handleCallback, hs, hu, hg, he]

/-! ## Claims -/

/-- Claim C1, counterexample: the stored order `M-1` is `COMPLETED`, yet
processing one further signal — a failure callback — switches its status
to `FAILED`.  Terminal statuses are not write-once in `src/server.js`:
the callback handler updates `status` unconditionally. -/
theorem C1_counterexample :
    (storeCompleted.get "M-1").map Order.status = some "COMPLETED" ∧
    ((handleCallback storeCompleted none failureCallback).store.get "M-1").map
        Order.status = some "FAILED" :=
  ⟨rfl, rfl⟩

/-- Claim C1, amended: both signal handlers blindly overwrite `status` on
every signal, regardless of the stored value.  A well-formed callback for
an existing order sets it to `COMPLETED` or `FAILED` according to the
success flag alone, and a poll reply with a truthy state sets it to the
raw reported state — even when the stored status was already terminal, so
terminal statuses can regress or switch. -/
theorem C1_amended_overwrite (store : Store) (adminEmail : Option String)
    (d : DecodedCallback) (o : Order) (m s : String) (txn : Option String)
    (o2 : Order)
    (h : store.get d.merchantOrderId = some o)
    (h2 : store.get m = some o2) :
    ((handleCallback store adminEmail ⟨true, true, .ok d⟩).store.get
        d.merchantOrderId).map Order.status
      = some (if d.success then "COMPLETED" else "FAILED") ∧
    ((handleStatus store m (.ok (some s) txn)).store.get m).map Order.status
      = some s := by
  constructor
  · cases hs : d.success
    · obtain ⟨s2, hu, hg⟩ := Store.update_of_get_some store d.merchantOrderId
        (fun o => { o with status := "FAILED", paymentState := some d.code }) o h
      simp [handleCallback, hs, hu, hg]
    · obtain ⟨s2, hu, hg⟩ := Store.update_of_get_some store d.merchantOrderId
        (fun o => { o with
                    status := "COMPLETED"
                    phonepeTransactionId := d.transactionId
                    paymentState := some d.code }) o h
      simp [handleCallback, hs, hu, hg]
  · obtain ⟨s2, hu, hg⟩ := Store.update_of_get_some store m
      (fun o => { o with
                  status := s
                  paymentState := some s
                  phonepeTransactionId := txn }) o2 h2
    simp [handleStatus, hu, hg]

/-- Claim C1, amended, witness: the completed order `M-1` receiving a
failure callback ends `FAILED`, and receiving a poll reply `EXPIRED` ends
`EXPIRED`. -/
theorem C1_amended_overwrite_witness :
    (storeCompleted.get "M-1" = some completedOrder ∧
     storeCompleted.get "M-1" = some completedOrder) ∧
    ((handleCallback storeCompleted none
          ⟨true, true, .ok ⟨false, "PAYMENT_ERROR", "M-1", none⟩⟩).store.get
        "M-1").map Order.status = some "FAILED" ∧
    ((handleStatus storeCompleted "M-1"
          (.ok (some "EXPIRED") none)).store.get "M-1").map Order.status
      = some "EXPIRED" :=
  ⟨⟨rfl, rfl⟩,
   C1_amended_overwrite storeCompleted none
     ⟨false, "PAYMENT_ERROR", "M-1", none⟩ completedOrder "M-1" "EXPIRED" none
     completedOrder rfl rfl⟩

/-- Claim C2, counterexample: delivering the same success callback twice
for the pending order `M-1` yields one `COMPLETED` order but two
confirmation-e-mail dispatches — there is no `notifiedAt` field (or any
other guard) in `src/server.js`; every successful callback re-sends the
e-mail. -/
theorem C2_counterexample :
    (iterateCallback none successCallback 2 storePending).2 = 2 ∧
    ((iterateCallback none successCallback 2 storePending).1.get "M-1").map
        Order.status = some "COMPLETED" :=
  ⟨rfl, rfl⟩

/-- Invariant for repeated delivery of one success callback with no admin
e-mail configured: `n` deliveries dispatch exactly `n` customer e-mails,
the order stays present with the same e-mail address, and after at least
one delivery its status is `COMPLETED`. -/
theorem iterateCallback_success_invariant (d : DecodedCallback) (e : String)
    (hs : d.success = true) (n : Nat) :
    ∀ (store : Store) (o : Order),
      store.get d.merchantOrderId = some o →
      o.shippingDetails.email = some e →
      (iterateCallback none ⟨true, true, .ok d⟩ n store).2 = n ∧
      ∃ o2, (iterateCallback none ⟨true, true, .ok d⟩ n store).1.get
              d.merchantOrderId = some o2 ∧
            o2.shippingDetails.email = some e ∧
            (n = 0 → o2 = o) ∧
            (n ≠ 0 → o2.status = "COMPLETED") := by
  induction n with
  | zero =>
    intro store o h he
    exact ⟨rfl, o, h, he, fun _ => rfl, fun hn => absurd rfl hn⟩
  | succ n ih =>
    intro store o h he
    obtain ⟨store2, hr, hg⟩ :=
      handleCallback_success_step store none d o e hs h he
    obtain ⟨hc, o2, hg2, he2, h0, hst⟩ := ih store2 _ hg he
    refine ⟨?_, o2, ?_, he2, fun h1 => absurd h1 n.succ_ne_zero, fun _ => ?_⟩
    · have hstep : (iterateCallback none ⟨true, true, .ok d⟩ (n + 1) store).2
          = (handleCallback store none ⟨true, true, .ok d⟩).emailsSent.length
            + (iterateCallback none ⟨true, true, .ok d⟩ n
                (handleCallback store none ⟨true, true, .ok d⟩).store).2 := rfl
      rw [hstep, hr]
      show 1 + (iterateCallback none ⟨true, true, .ok d⟩ n store2).2 = n + 1
      rw [hc]
      omega
    · simp only [iterateCallback, hr]
      exact hg2
    · by_cases hn0 : n = 0
      · subst hn0
        rw [h0 rfl]
      · exact hst hn0

/-- Claim C2, amended: there is no `notifiedAt` guard — delivering the
same success callback `n ≥ 1` times for an existing order with a truthy
customer e-mail yields one `COMPLETED` order but exactly `n`
confirmation-e-mail dispatches, one per delivery (the poll path
dispatches none). -/
theorem C2_amended_n_dispatches (store : Store) (d : DecodedCallback)
    (o : Order) (e : String) (n : Nat)
    (hs : d.success = true) (hn : n ≠ 0)
    (h : store.get d.merchantOrderId = some o)
    (he : o.shippingDetails.email = some e) :
    (iterateCallback none ⟨true, true, .ok d⟩ n store).2 = n ∧
    ((iterateCallback none ⟨true, true, .ok d⟩ n store).1.get
        d.merchantOrderId).map Order.status = some "COMPLETED" := by
  obtain ⟨hc, o2, hg, he2, h0, hst⟩ :=
    iterateCallback_success_invariant d e hs n store o h he
  refine ⟨hc, ?_⟩
  rw [hg]
  simp [hst hn]

/-- Claim C2, amended, witness: two deliveries of the success callback
for the pending order `M-1` produce two dispatches and one `COMPLETED`
order. -/
theorem C2_amended_n_dispatches_witness :
    ((DecodedCallback.mk true "PAYMENT_SUCCESS" "M-1" (some "T1")).success
        = true ∧
     (2 : Nat) ≠ 0 ∧
     storePending.get "M-1" = some pendingOrder ∧
     pendingOrder.shippingDetails.email = some "asha@example.com") ∧
    (iterateCallback none
        ⟨true, true, .ok ⟨true, "PAYMENT_SUCCESS", "M-1", some "T1"⟩⟩ 2
        storePending).2 = 2 ∧
    ((iterateCallback none
        ⟨true, true, .ok ⟨true, "PAYMENT_SUCCESS", "M-1", some "T1"⟩⟩ 2
        storePending).1.get "M-1").map Order.status = some "COMPLETED" :=
  ⟨⟨rfl, by decide, rfl, rfl⟩,
   C2_amended_n_dispatches storePending
     ⟨true, "PAYMENT_SUCCESS", "M-1", some "T1"⟩ pendingOrder
     "asha@example.com" 2 rfl (by decide) rfl rfl⟩

/-- Claim C3, counterexample: the status endpoint performs no
normalization — a poll reply whose raw state is `EXPIRED` is written
verbatim into the `status` field, which then holds a value outside
`{PENDING, COMPLETED, FAILED}`. -/
theorem C3_counterexample :
    ((handleStatus storePending "M-1" (.ok (some "EXPIRED") none)).store.get
        "M-1").map Order.status = some "EXPIRED" ∧
    "EXPIRED" ∉ ["PENDING", "COMPLETED", "FAILED"] :=
  ⟨rfl, by decide⟩

/-- Claim C3, amended: only the callback path maps its signal into
`COMPLETED`/`FAILED`; the poll path writes the gateway's raw state string
into `status` verbatim, for every existing order and every truthy state
string, so the stored status stays inside `{PENDING, COMPLETED, FAILED}`
only when the gateway itself reports states from that set. -/
theorem C3_amended_raw_state_written (store : Store) (m s : String)
    (txn : Option String) (o : Order) (h : store.get m = some o) :
    ((handleStatus store m (.ok (some s) txn)).store.get m).map Order.status
      = some s ∧
    ((handleStatus store m (.ok (some s) txn)).store.get m).map
        Order.paymentState = some (some s) := by
  obtain ⟨s2, hu, hg⟩ := Store.update_of_get_some store m
    (fun o => { o with
                status := s
                paymentState := some s
                phonepeTransactionId := txn }) o h
  constructor <;> simp [handleStatus, hu, hg]

/-- Claim C3, amended, witness: a poll reply `EXPIRED` for the pending
order `M-1` is stored verbatim. -/
theorem C3_amended_raw_state_written_witness :
    storePending.get "M-1" = some pendingOrder ∧
    ((handleStatus storePending "M-1" (.ok (some "EXPIRED") none)).store.get
        "M-1").map Order.status = some "EXPIRED" ∧
    ((handleStatus storePending "M-1" (.ok (some "EXPIRED") none)).store.get
        "M-1").map Order.paymentState = some (some "EXPIRED") :=
  ⟨rfl, C3_amended_raw_state_written storePending "M-1" "EXPIRED" none
    pendingOrder rfl⟩

/-- Claim C4, counterexample: a well-formed success callback for the
unknown order `M-2` leaves the store untouched (Firestore's `update`
rejects on a missing document) — but the rejection propagates to the
catch block, which answers HTTP 500, not a 2xx status. -/
theorem C4_counterexample :
    (handleCallback storePending none unknownCallback).store = storePending ∧
    (handleCallback storePending none unknownCallback).httpStatus = 500 ∧
    ¬(200 ≤ (handleCallback storePending none unknownCallback).httpStatus ∧
      (handleCallback storePending none unknownCallback).httpStatus < 300) :=
  ⟨rfl, rfl, by decide⟩

/-- Claim C4, amended: a decodable callback for an order id absent from
the store leaves the store unchanged, dispatches no e-mail, and answers
HTTP 500 (the `update` rejection is caught by the handler's `try`), for
either value of the success flag. -/
theorem C4_amended_unknown_order (store : Store) (adminEmail : Option String)
    (d : DecodedCallback) (h : store.get d.merchantOrderId = none) :
    handleCallback store adminEmail ⟨true, true, .ok d⟩ = ⟨500, store, []⟩ := by
  cases hs : d.success <;>
    simp [handleCallback, hs, Store.update_of_get_none store d.merchantOrderId _ h]

/-- Claim C4, amended, witness: the unknown-order callback against the
single-order store. -/
theorem C4_amended_unknown_order_witness :
    storePending.get "M-2" = none ∧
    handleCallback storePending none
        ⟨true, true, .ok ⟨true, "PAYMENT_SUCCESS", "M-2", some "T2"⟩⟩
      = ⟨500, storePending, []⟩ :=
  ⟨rfl, C4_amended_unknown_order storePending none
    ⟨true, "PAYMENT_SUCCESS", "M-2", some "T2"⟩ rfl⟩

/-- Claim C5, counterexample: the stored order `M-1` is already
`COMPLETED`, yet a status query still performs one gateway
`getOrderStatus` call — the handler calls the gateway before ever reading
the stored order, so terminal orders do not short-circuit. -/
theorem C5_counterexample :
    (storeCompleted.get "M-1").map Order.status = some "COMPLETED" ∧
    (handleStatus storeCompleted "M-1"
        (.ok (some "COMPLETED") (some "T1"))).gatewayCalls = 1 :=
  ⟨rfl, rfl⟩

/-- Claim C5, amended: every status query performs exactly one gateway
call, whatever the store contains and whatever the gateway answers — the
handler never consults the stored status first. -/
theorem C5_amended_always_one_gateway_call (store : Store) (m : String)
    (gw : GatewayStatusResult) :
    (handleStatus store m gw).gatewayCalls = 1 := by
  cases gw with
  | error => rfl
  | ok st txn =>
    cases st with
    | none => rfl
    | some s =>
      cases hu : store.update m (fun o =>
          { o with
            status := s
            paymentState := some s
            phonepeTransactionId := txn }) <;>
        simp [handleStatus, hu]

/-- Claim C6, counterexample: the order `M-1` has no gateway handle
(`merchantTransactionId` absent), yet a status query does not fail with
any `MissingHandle` error — the handler queries the gateway by
`merchantOrderId` (never reading the handle), answers 200, and mutates
the order to the reported state. -/
theorem C6_counterexample :
    (storeNoHandle.get "M-1").map Order.merchantTransactionId = some none ∧
    (storeNoHandle.get "M-1").map Order.status = some "PENDING" ∧
    (handleStatus storeNoHandle "M-1" (.ok (some "FAILED") none)).httpStatus
      = 200 ∧
    ((handleStatus storeNoHandle "M-1" (.ok (some "FAILED") none)).store.get
        "M-1").map Order.status = some "FAILED" :=
  ⟨rfl, rfl, rfl, rfl⟩

/-- Claim C6, amended: there is no `MissingHandle` failure path — the
status endpoint never consults the stored gateway handle; for an existing
order with no handle it still queries the gateway by order id, answers
200 when the gateway reports a truthy state, and overwrites the order. -/
theorem C6_amended_no_missing_handle (store : Store) (m s : String)
    (txn : Option String) (o : Order)
    (h : store.get m = some o) (_hh : o.merchantTransactionId = none) :
    (handleStatus store m (.ok (some s) txn)).httpStatus = 200 ∧
    (handleStatus store m (.ok (some s) txn)).store.get m
      = some { o with
               status := s
               paymentState := some s
               phonepeTransactionId := txn } := by
  obtain ⟨s2, hu, hg⟩ := Store.update_of_get_some store m
    (fun o => { o with
                status := s
                paymentState := some s
                phonepeTransactionId := txn }) o h
  constructor <;> simp [handleStatus, hu, hg]

/-- Claim C6, amended, witness: the handle-less order `M-1` is mutated by
a `FAILED` poll reply. -/
theorem C6_amended_no_missing_handle_witness :
    (storeNoHandle.get "M-1" = some noHandleOrder ∧
     noHandleOrder.merchantTransactionId = none) ∧
    (handleStatus storeNoHandle "M-1" (.ok (some "FAILED") none)).httpStatus
      = 200 ∧
    (handleStatus storeNoHandle "M-1" (.ok (some "FAILED") none)).store.get
        "M-1"
      = some { noHandleOrder with
               status := "FAILED"
               paymentState := some "FAILED"
               phonepeTransactionId := none } :=
  ⟨⟨rfl, rfl⟩, C6_amended_no_missing_handle storeNoHandle "M-1" "FAILED" none
    noHandleOrder rfl rfl⟩

/-- Claim C7, counterexample: a poll reply with state `FAILED` carrying a
transaction id stores both verbatim — the order ends with
`phonepeTransactionId` present while its status is `FAILED`, so the field
is not present-iff-`COMPLETED` and is not written only on the
`PENDING → COMPLETED` edge. -/
theorem C7_counterexample :
    ((handleStatus storePending "M-1" (.ok (some "FAILED") (some "T9"))).store.get
        "M-1").map (fun o => (o.status, o.phonepeTransactionId))
      = some ("FAILED", some "T9") ∧
    "FAILED" ≠ "COMPLETED" :=
  ⟨rfl, by decide⟩

/-- Claim C7, amended: `phonepeTransactionId` is overwritten on every
successful callback (whatever the stored status, not only from
`PENDING`) and on every poll update (to the reported id, or cleared to
null, whatever the reported state) — its presence does not track
`status = COMPLETED` and it is not set-once. -/
theorem C7_amended_txn_overwritten (store : Store) (adminEmail : Option String)
    (d : DecodedCallback) (o : Order) (m s : String) (txn : Option String)
    (o2 : Order) (hs : d.success = true)
    (h : store.get d.merchantOrderId = some o)
    (h2 : store.get m = some o2) :
    ((handleCallback store adminEmail ⟨true, true, .ok d⟩).store.get
        d.merchantOrderId).map Order.phonepeTransactionId
      = some d.transactionId ∧
    ((handleStatus store m (.ok (some s) txn)).store.get m).map
        Order.phonepeTransactionId = some txn := by
  constructor
  · obtain ⟨s2, hu, hg⟩ := Store.update_of_get_some store d.merchantOrderId
      (fun o => { o with
                  status := "COMPLETED"
                  phonepeTransactionId := d.transactionId
                  paymentState := some d.code }) o h
    simp [handleCallback, hs, hu, hg]
  · obtain ⟨s2, hu, hg⟩ := Store.update_of_get_some store m
      (fun o => { o with
                  status := s
                  paymentState := some s
                  phonepeTransactionId := txn }) o2 h2
    simp [handleStatus, hu, hg]

/-- Claim C7, amended, witness: a second success callback with a new
transaction id `T2` overwrites the already-set `T1` on the completed
order, and a `FAILED` poll reply stores `T9` next to the `FAILED`
status. -/
theorem C7_amended_txn_overwritten_witness :
    ((DecodedCallback.mk true "PAYMENT_SUCCESS" "M-1" (some "T2")).success
        = true ∧
     storeCompleted.get "M-1" = some completedOrder ∧
     storeCompleted.get "M-1" = some completedOrder) ∧
    ((handleCallback storeCompleted none
          ⟨true, true, .ok ⟨true, "PAYMENT_SUCCESS", "M-1", some "T2"⟩⟩).store.get
        "M-1").map Order.phonepeTransactionId = some (some "T2") ∧
    ((handleStatus storeCompleted "M-1"
          (.ok (some "FAILED") (some "T9"))).store.get "M-1").map
        Order.phonepeTransactionId = some (some "T9") :=
  ⟨⟨rfl, rfl, rfl⟩,
   C7_amended_txn_overwritten storeCompleted none
     ⟨true, "PAYMENT_SUCCESS", "M-1", some "T2"⟩ completedOrder "M-1" "FAILED"
     (some "T9") completedOrder rfl rfl rfl⟩

/-- A pay request whose amount is negative: every field is
JavaScript-truthy, so the handler's falsy guard does not reject it. -/
def negativeAmountRequest : PayRequestBody :=
  ⟨some (-5), some demoProducts, some demoShipping, some "U1"⟩

/-- Claim C8, counterexample: the pay handler's guard is the JavaScript
falsy check `!amount || ...`, which a negative amount passes — with
`amount = -5` the request is not rejected: the order is persisted with
amount `-5` and the gateway is called with `-500` paise. -/
theorem C8_counterexample :
    negativeAmountRequest.amount = some (-5) ∧
    (handlePay [] "M-9" negativeAmountRequest (.ok none none)).httpStatus
      = 200 ∧
    ((handlePay [] "M-9" negativeAmountRequest (.ok none none)).store.get
        "M-9").map Order.amount = some (-5) ∧
    (handlePay [] "M-9" negativeAmountRequest (.ok none none)).gatewayAmount
      = some (-500) :=
  ⟨rfl, rfl, rfl, rfl⟩

/-- Claim C8, amended: the pay handler rejects a request exactly when the
JavaScript falsy guard fires — some field absent, or `amount` equal to
zero: those answer 400 with the store unchanged and no gateway call.
Negative amounts are not rejected. -/
theorem C8_amended_falsy_guard (store : Store) (m : String)
    (req : PayRequestBody) (gw : GatewayPayResult)
    (h : req.invalid = true) :
    handlePay store m req gw = ⟨400, store, none⟩ := by
  obtain ⟨oa, op, os, ou⟩ := req
  cases oa with
  | none => cases op <;> cases os <;> cases ou <;> rfl
  | some a =>
    cases op with
    | none => cases os <;> cases ou <;> rfl
    | some p =>
      cases os with
      | none => cases ou <;> rfl
      | some sd =>
        cases ou with
        | none => rfl
        | some u =>
          simp [PayRequestBody.invalid] at h
          simp [handlePay, h]

/-- Claim C8, amended, witness: a request with `amount = 0` is rejected
with 400, the store untouched and no gateway amount recorded. -/
theorem C8_amended_falsy_guard_witness :
    (PayRequestBody.mk (some 0) (some demoProducts) (some demoShipping)
        (some "U1")).invalid = true ∧
    handlePay [] "M-9"
        ⟨some 0, some demoProducts, some demoShipping, some "U1"⟩ .error
      = ⟨400, [], none⟩ :=
  ⟨rfl, C8_amended_falsy_guard [] "M-9"
    ⟨some 0, some demoProducts, some demoShipping, some "U1"⟩ .error rfl⟩

/-- Claim C9, confirmed: when `phonepeClient.pay` throws after the order
document was persisted, the catch answers 500 ("An error occurred while
initiating payment") and the persisted order is retained — still present,
status `PENDING`, with no gateway handle (`merchantTransactionId`
absent).  Nothing rolls the document back. -/
theorem C9_initiation_failure_retains_order (store : Store) (m : String)
    (a : Int) (p : List Product) (sd : ShippingDetails) (u : String)
    (ha : a ≠ 0) :
    (handlePay store m ⟨some a, some p, some sd, some u⟩ .error).httpStatus
      = 500 ∧
    ((handlePay store m ⟨some a, some p, some sd, some u⟩ .error).store.get
        m).map (fun o => (o.status, o.merchantTransactionId,
          o.phonepeTransactionId))
      = some ("PENDING", none, none) := by
  have hb : (a == 0) = false := by simp [ha]
  constructor <;> simp [handlePay, hb, Store.get_set]

/-- Claim C9, witness: initiation failure for a concrete valid request
leaves the `PENDING`, handle-less order in the store and answers 500. -/
theorem C9_initiation_failure_retains_order_witness :
    (500 : Int) ≠ 0 ∧
    (handlePay [] "M-7"
        ⟨some 500, some demoProducts, some demoShipping, some "U1"⟩
        .error).httpStatus = 500 ∧
    ((handlePay [] "M-7"
        ⟨some 500, some demoProducts, some demoShipping, some "U1"⟩
        .error).store.get "M-7").map
        (fun o => (o.status, o.merchantTransactionId, o.phonepeTransactionId))
      = some ("PENDING", none, none) :=
  ⟨by decide, C9_initiation_failure_retains_order [] "M-7" 500 demoProducts
    demoShipping "U1" (by decide)⟩

/-- Claim C10, confirmed: on a successful creation the persisted document
holds the caller-supplied amount unchanged (rupees), while the amount
passed to the gateway's `pay` call is that amount multiplied by 100
(paise) — `.amount(amount * 100)` in the source. -/
theorem C10_rupees_stored_paise_sent (store : Store) (m : String)
    (a : Int) (p : List Product) (sd : ShippingDetails) (u : String)
    (oid ru : Option String) (ha : a ≠ 0) :
    (handlePay store m ⟨some a, some p, some sd, some u⟩
        (.ok oid ru)).httpStatus = 200 ∧
    ((handlePay store m ⟨some a, some p, some sd, some u⟩
        (.ok oid ru)).store.get m).map Order.amount = some a ∧
    (handlePay store m ⟨some a, some p, some sd, some u⟩
        (.ok oid ru)).gatewayAmount = some (a * 100) := by
  have hb : (a == 0) = false := by simp [ha]
  have hset := Store.get_set store m
    { merchantOrderId := m
      userId := u
      amount := a
      products := p
      shippingDetails := sd
      status := "PENDING"
      paymentState := none
      phonepeTransactionId := none
      merchantTransactionId := none }
  cases oid with
  | none =>
    refine ⟨?_, ?_, ?_⟩ <;> simp [handlePay, hb, hset]
  | some hdl =>
    obtain ⟨s2, hu, hg⟩ := Store.update_of_get_some (store.set m _) m
      (fun o => { o with merchantTransactionId := some hdl }) _ hset
    refine ⟨?_, ?_, ?_⟩ <;> simp [handlePay, hb, hu, hg]

/-- Claim C10, witness: amount 500 is stored as 500 and sent to the
gateway as 50000 paise. -/
theorem C10_rupees_stored_paise_sent_witness :
    (500 : Int) ≠ 0 ∧
    (handlePay [] "M-7"
        ⟨some 500, some demoProducts, some demoShipping, some "U1"⟩
        (.ok (some "H1") (some "https://pay.example"))).httpStatus = 200 ∧
    ((handlePay [] "M-7"
        ⟨some 500, some demoProducts, some demoShipping, some "U1"⟩
        (.ok (some "H1") (some "https://pay.example"))).store.get "M-7").map
        Order.amount = some 500 ∧
    (handlePay [] "M-7"
        ⟨some 500, some demoProducts, some demoShipping, some "U1"⟩
        (.ok (some "H1") (some "https://pay.example"))).gatewayAmount
      = some (500 * 100) :=
  ⟨by decide, C10_rupees_stored_paise_sent [] "M-7" 500 demoProducts
    demoShipping "U1" (some "H1") (some "https://pay.example") (by decide)⟩
